import Mathlib

/-!
Verification development for the Twitch-chat GPT backend (`src/index.js`).

The resilience core of the program is embedded shallowly:

* `ErrSig` models a thrown error as seen by the code: the resolved numeric
  status (`err?.status || err?.response?.status`), the error code string
  (`err?.code`) and the message (`err?.message`).
* `isRetriable` embeds the retriability test of `withRetry` (lines 80-88).
* `backoffDelay` embeds the delay computation
  `Math.round(baseDelay * Math.pow(factor, attempt - 1) + Math.random() * 200)`
  (line 94), with the random draw made an explicit rational parameter.
* `withRetry` embeds the retry loop (lines 73-99).  A call of the wrapped
  `fn` is modelled by an `Attempt`: its duration in milliseconds and its
  outcome.  The loop counter `attempt` of the source is the 1-based count of
  completed failed calls; the embedding recurses on the remaining budget
  `rem = retries - failures so far`, so the source guard
  `!retriable || attempt > retries` becomes `!retriable || rem = 0`.
* `withTimeout` embeds the race of lines 101-111: the wrapped promise settles
  at an explicit time; the race returns it if it settles strictly before the
  budget, and rejects with the `Client timeout after <ms>ms` error otherwise.
  The `finally` clause always clears the timer, recorded in `timerCleared`.
* `callOpenAIChat` (lines 151-177) composes the two: the timeout races the
  settling time of the whole retry sequence.
* `orchestrate` embeds the primary/fallback try-catch of the `/gpt/:text`
  route (lines 212-235 and 244-272), abstracting one full `callOpenAIChat`
  invocation as `call model`; it also returns the list of models invoked.
* `trimForTwitch` embeds lines 179-184.
* `chatCycle` embeds one CHAT-mode request: push the user message, evict via
  `messages.splice(1, 2)` when `messages.length > HISTORY_LENGTH * 2 + 1`
  (lines 199-209), and push the assistant reply only on success (line 239);
  on failure the catch handler (lines 284-302) leaves `messages` untouched.
* `httpStatusFor` and `failureBody` embed the catch handler of lines 284-302.
-/

/-- An error signal: optional resolved HTTP status, optional error code
string, optional message, as read off a thrown `err` by the source. -/
structure ErrSig where
  status : Option Nat
  code : Option String
  message : Option String
deriving DecidableEq, Repr

/-- `new Set([408, 409, 425, 429, 500, 502, 503, 504])` (line 83). -/
def retriableStatuses : List Nat := [408, 409, 425, 429, 500, 502, 503, 504]

/-- The transient network/timeout error codes of lines 84-87. -/
def retriableCodes : List String :=
  ["ECONNRESET", "EPIPE", "UND_ERR_CONNECT_TIMEOUT", "UND_ERR_HEADERS_TIMEOUT",
   "UND_ERR_BODY_TIMEOUT", "ETIMEDOUT", "ESOCKETTIMEDOUT"]

/-- `retriableStatuses.has(status) || retriableCodes.has(code)` (line 88);
`Set.has(undefined)` is `false`, hence the `none` branches. -/
def isRetriable (e : ErrSig) : Bool :=
  (match e.status with
   | some s => retriableStatuses.contains s
   | none => false)
  ||
  (match e.code with
   | some c => retriableCodes.contains c
   | none => false)

/-- Line 94: `Math.round(baseDelay * Math.pow(factor, attempt - 1) +
Math.random() * 200)`.  The draw `Math.random() * 200` is the explicit
parameter `jitter`; `Math.round x = floor (x + 1/2)` is Mathlib `round`. -/
def backoffDelay (baseDelay factor attempt : Nat) (jitter : ℚ) : ℤ :=
  round ((baseDelay : ℚ) * (factor : ℚ) ^ (attempt - 1) + jitter)

/-- One call of the wrapped operation `fn`: how long it runs (ms) and how it
settles. -/
structure Attempt (α : Type) where
  dur : Nat
  result : Except ErrSig α

/-- The observable outcome of a `withRetry` run: how it settles, how many
calls of `fn` were made, and the total elapsed time (call durations plus
backoff sleeps). -/
structure RetryOutcome (α : Type) where
  result : Except ErrSig α
  attempts : Nat
  elapsed : Nat

/-- The loop of `withRetry` (lines 76-98).  `i` is the 0-based index of the
call about to be made, `rem` the remaining retry budget (`retries - i` at
entry), `elapsed` the time spent so far.  On failure the source sets
`attempt = i + 1` and throws unless the error is retriable and
`attempt <= retries`, i.e. unless `rem > 0`; otherwise it sleeps
`backoffDelay` for that `attempt` and loops. -/
def withRetryGo {α : Type} (fn : Nat → Attempt α) (baseDelay factor : Nat)
    (jit : Nat → ℚ) : Nat → Nat → Nat → RetryOutcome α
  | i, rem, elapsed =>
    match (fn i).result with
    | .ok v => ⟨.ok v, i + 1, elapsed + (fn i).dur⟩
    | .error e =>
      if isRetriable e then
        match rem with
        | 0 => ⟨.error e, i + 1, elapsed + (fn i).dur⟩
        | rem' + 1 =>
          withRetryGo fn baseDelay factor jit (i + 1) rem'
            (elapsed + (fn i).dur +
              (backoffDelay baseDelay factor (i + 1) (jit (i + 1))).toNat)
      else ⟨.error e, i + 1, elapsed + (fn i).dur⟩

/-- `withRetry(fn, { retries, baseDelay, factor })` (lines 73-99); `jit i`
is the `Math.random() * 200` draw taken after the `i`-th failure. -/
def withRetry {α : Type} (fn : Nat → Attempt α) (retries baseDelay factor : Nat)
    (jit : Nat → ℚ) : RetryOutcome α :=
  withRetryGo fn baseDelay factor jit 0 retries 0

/-- The rejection value of the timeout race (line 104):
`new Error('Client timeout after ' + ms + 'ms')` — no status, no code. -/
def clientTimeoutErr (ms : Nat) : ErrSig :=
  ⟨none, none, some ("Client timeout after " ++ toString ms ++ "ms")⟩

/-- The observable outcome of a `withTimeout` run: how the race settles and
whether `clearTimeout` ran. -/
structure TimeoutRun (α : Type) where
  result : Except ErrSig α
  timerCleared : Bool

/-- `withTimeout(promise, ms)` (lines 101-111).  The wrapped promise settles
at time `settleTime` with value `result`; `Promise.race` yields it if it
settles strictly before the timer fires at `ms`, and the timeout rejection
otherwise.  The `finally` block runs `clearTimeout(timer)` on both paths. -/
def withTimeout {α : Type} (settleTime : Nat) (result : Except ErrSig α)
    (ms : Nat) : TimeoutRun α :=
  ⟨if settleTime < ms then result else .error (clientTimeoutErr ms), true⟩

/-- `callOpenAIChat` (lines 151-177): `withTimeout(withRetry(fn, opts), ms)`.
The retry sequence settles as one promise at its total elapsed time, so the
timeout races the whole sequence, not each individual call of `fn`. -/
def callOpenAIChat {α : Type} (fn : Nat → Attempt α)
    (retries baseDelay factor : Nat) (jit : Nat → ℚ) (timeoutMs : Nat) :
    TimeoutRun α :=
  let r := withRetry fn retries baseDelay factor jit
  withTimeout r.elapsed r.result timeoutMs

/-- The primary/fallback try-catch of the `/gpt/:text` route (lines 212-235,
and identically lines 244-272): try `call primaryModel`; on failure, if
`fallbackModel && fallbackModel !== primaryModel` make one further call with
the fallback model and let its outcome stand, else rethrow the primary
error.  `call m` abstracts one full `callOpenAIChat` run for model `m`; the
second component records which models were invoked, in order. -/
def orchestrate {α : Type} (call : String → Except ErrSig α)
    (primaryModel fallbackModel : String) : Except ErrSig α × List String :=
  match call primaryModel with
  | .ok r => (.ok r, [primaryModel])
  | .error e =>
    if fallbackModel ≠ "" ∧ fallbackModel ≠ primaryModel then
      (call fallbackModel, [primaryModel, fallbackModel])
    else
      (.error e, [primaryModel])

/-- `trimForTwitch` (lines 179-184): empty (falsy) text gives `''`, text of
length at most 1000 is returned as is, longer text is cut to
`text.substring(0, 1000)`. -/
def trimForTwitch (text : String) : String :=
  if text = "" then ""
  else if text.length ≤ 1000 then text
  else String.mk (text.toList.take 1000)

/-- Message roles of the chat payload. -/
inductive Role where
  | system
  | user
  | assistant
deriving DecidableEq, Repr

/-- One `{ role, content }` element of the `messages` array. -/
structure Exchange where
  role : Role
  content : String
deriving DecidableEq, Repr

/-- Lines 201-209 of the CHAT branch: push the user message, then if
`messages.length > HISTORY_LENGTH * 2 + 1` drop the two elements after the
system message (`messages.splice(1, 2)`). -/
def pushUserAndEvict (H : Nat) (msgs : List Exchange) (txt : String) :
    List Exchange :=
  let m1 := msgs ++ [⟨Role.user, txt⟩]
  if 2 * H + 1 < m1.length then m1.take 1 ++ m1.drop 3 else m1

/-- One full CHAT-mode request against the shared `messages` list:
lines 201-209 always run; on upstream success the assistant reply is pushed
(line 239); on failure the catch handler (lines 284-302) only builds the
HTTP error response and leaves `messages` as it stands. -/
def chatCycle (H : Nat) (msgs : List Exchange) (txt : String)
    (callResult : Except ErrSig String) : List Exchange :=
  let m2 := pushUserAndEvict H msgs txt
  match callResult with
  | .ok reply => m2 ++ [⟨Role.assistant, reply⟩]
  | .error _ => m2

/-- `n` consecutive successful CHAT-mode requests starting from the lone
system message, with query `u i` and reply `r i` on the `i`-th request. -/
def chatCycles (H : Nat) (sys : Exchange) (u r : Nat → String) :
    Nat → List Exchange
  | 0 => [sys]
  | n + 1 => chatCycle H (chatCycles H sys u r n) (u n) (.ok (r n))

/-- The user/assistant pairs for requests `s, s+1, ..., s+k-1`. -/
def recentPairs (u r : Nat → String) : Nat → Nat → List Exchange
  | _, 0 => []
  | s, k + 1 =>
    ⟨Role.user, u s⟩ :: ⟨Role.assistant, r s⟩ :: recentPairs u r (s + 1) k

/-- Line 294 of the catch handler:
`[429, 500, 502, 503, 504].includes(status)`. -/
def upstream503Statuses : List Nat := [429, 500, 502, 503, 504]

/-- Line 294: `[429, 500, 502, 503, 504].includes(status) ? 503 : 500`;
`includes(undefined)` is `false`. -/
def httpStatusFor (e : ErrSig) : Nat :=
  match e.status with
  | some s => if upstream503Statuses.contains s then 503 else 500
  | none => 500

/-- Lines 286-289: `detail = JSON of err.response.data || err.message ||
'Unknown error'`.  The embedding carries the message only; an empty message
is falsy and falls through to `'Unknown error'`. -/
def errorDetail (e : ErrSig) : String :=
  match e.message with
  | some m => if m = "" then "Unknown error" else m
  | none => "Unknown error"

/-- Lines 296-300: the failure response body.  The template shows
`status || httpStatus`, so an absent (or zero, hence falsy) upstream status
falls back to the chosen HTTP status. -/
def failureBody (e : ErrSig) : String :=
  let hs := httpStatusFor e
  let shown : Nat :=
    match e.status with
    | some s => if s = 0 then hs else s
    | none => hs
  "AI backend temporarily unavailable (status=" ++ toString shown ++
    "). Details: " ++ errorDetail e

/-! ## Helper lemmas about the retry loop -/

/-- The sleep inserted after the failed call of index `i` (0-based), i.e.
after the source's `attempt = i + 1` completed failures. -/
def sleepAfter (baseDelay factor : Nat) (jit : Nat → ℚ) (i : Nat) : Nat :=
  (backoffDelay baseDelay factor (i + 1) (jit (i + 1))).toNat

theorem withRetryGo_ok {α : Type} {fn : Nat → Attempt α}
    (baseDelay factor : Nat) (jit : Nat → ℚ) (i rem el : Nat) {v : α}
    (h : (fn i).result = .ok v) :
    withRetryGo fn baseDelay factor jit i rem el =
      ⟨.ok v, i + 1, el + (fn i).dur⟩ := by
  rw [withRetryGo.eq_def]
  simp only [h]

theorem withRetryGo_nonretriable {α : Type} {fn : Nat → Attempt α}
    (baseDelay factor : Nat) (jit : Nat → ℚ) (i rem el : Nat) {e : ErrSig}
    (h : (fn i).result = .error e) (hre : isRetriable e = false) :
    withRetryGo fn baseDelay factor jit i rem el =
      ⟨.error e, i + 1, el + (fn i).dur⟩ := by
  rw [withRetryGo.eq_def]
  simp only [h, hre, Bool.false_eq_true, if_false]

theorem withRetryGo_exhausted {α : Type} {fn : Nat → Attempt α}
    (baseDelay factor : Nat) (jit : Nat → ℚ) (i el : Nat) {e : ErrSig}
    (h : (fn i).result = .error e) (hre : isRetriable e = true) :
    withRetryGo fn baseDelay factor jit i 0 el =
      ⟨.error e, i + 1, el + (fn i).dur⟩ := by
  rw [withRetryGo.eq_def]
  simp only [h, hre, if_true]

theorem withRetryGo_step {α : Type} {fn : Nat → Attempt α}
    (baseDelay factor : Nat) (jit : Nat → ℚ) (i rem el : Nat) {e : ErrSig}
    (h : (fn i).result = .error e) (hre : isRetriable e = true) :
    withRetryGo fn baseDelay factor jit i (rem + 1) el =
      withRetryGo fn baseDelay factor jit (i + 1) rem
        (el + (fn i).dur + sleepAfter baseDelay factor jit i) := by
  rw [withRetryGo.eq_def]
  simp only [h, hre, if_true, sleepAfter]

theorem withRetryGo_attempts_le {α : Type} (fn : Nat → Attempt α)
    (baseDelay factor : Nat) (jit : Nat → ℚ) :
    ∀ rem i el, (withRetryGo fn baseDelay factor jit i rem el).attempts ≤ i + rem + 1 := by
  intro rem
  induction rem with
  | zero =>
    intro i el
    cases h : (fn i).result with
    | ok v => rw [withRetryGo_ok baseDelay factor jit i 0 el h]
    | error e =>
      cases hre : isRetriable e with
      | true => rw [withRetryGo_exhausted baseDelay factor jit i el h hre]
      | false => rw [withRetryGo_nonretriable baseDelay factor jit i 0 el h hre]
  | succ rem ih =>
    intro i el
    cases h : (fn i).result with
    | ok v =>
      rw [withRetryGo_ok baseDelay factor jit i (rem + 1) el h]
      simp only []
      omega
    | error e =>
      cases hre : isRetriable e with
      | true =>
        rw [withRetryGo_step baseDelay factor jit i rem el h hre]
        have := ih (i + 1) (el + (fn i).dur + sleepAfter baseDelay factor jit i)
        omega
      | false =>
        rw [withRetryGo_nonretriable baseDelay factor jit i (rem + 1) el h hre]
        simp only []
        omega

theorem withRetryGo_first_success {α : Type} (fn : Nat → Attempt α)
    (baseDelay factor : Nat) (jit : Nat → ℚ) :
    ∀ rem i el m v, i ≤ m → m ≤ i + rem →
      (∀ k, i ≤ k → k < m → ∃ e, (fn k).result = .error e ∧ isRetriable e = true) →
      (fn m).result = .ok v →
      (withRetryGo fn baseDelay factor jit i rem el).result = .ok v ∧
      (withRetryGo fn baseDelay factor jit i rem el).attempts = m + 1 := by
  intro rem
  induction rem with
  | zero =>
    intro i el m v him hmi _hfail hok
    have hmeq : m = i := by omega
    subst hmeq
    rw [withRetryGo_ok baseDelay factor jit m 0 el hok]
    exact ⟨rfl, rfl⟩
  | succ rem ih =>
    intro i el m v him hmi hfail hok
    rcases Nat.eq_or_lt_of_le him with heq | hlt
    · subst heq
      rw [withRetryGo_ok baseDelay factor jit i (rem + 1) el hok]
      exact ⟨rfl, rfl⟩
    · obtain ⟨e, he, hre⟩ := hfail i (le_refl i) hlt
      rw [withRetryGo_step baseDelay factor jit i rem el he hre]
      exact ih (i + 1)
        (el + (fn i).dur + sleepAfter baseDelay factor jit i)
        m v hlt (by omega) (fun k hk hk2 => hfail k (by omega) hk2) hok

theorem withRetryGo_exhaust {α : Type} (fn : Nat → Attempt α)
    (baseDelay factor : Nat) (jit : Nat → ℚ) :
    ∀ rem i el,
      (∀ k, i ≤ k → k ≤ i + rem → ∃ e, (fn k).result = .error e ∧ isRetriable e = true) →
      ∃ e, (fn (i + rem)).result = .error e ∧ isRetriable e = true ∧
        (withRetryGo fn baseDelay factor jit i rem el).result = .error e ∧
        (withRetryGo fn baseDelay factor jit i rem el).attempts = i + rem + 1 := by
  intro rem
  induction rem with
  | zero =>
    intro i el hfail
    obtain ⟨e, he, hre⟩ := hfail i (le_refl i) (by omega)
    refine ⟨e, by simpa using he, hre, ?_⟩
    rw [withRetryGo_exhausted baseDelay factor jit i el he hre]
    exact ⟨rfl, rfl⟩
  | succ rem ih =>
    intro i el hfail
    obtain ⟨e, he, hre⟩ := hfail i (le_refl i) (by omega)
    obtain ⟨e2, he2, hre2, hres2, hatt2⟩ := ih (i + 1)
      (el + (fn i).dur + sleepAfter baseDelay factor jit i)
      (fun k hk hk2 => hfail k (by omega) (by omega))
    refine ⟨e2, ?_, hre2, ?_, ?_⟩
    · have harith : i + 1 + rem = i + (rem + 1) := by omega
      rwa [harith] at he2
    · rw [withRetryGo_step baseDelay factor jit i rem el he hre]
      exact hres2
    · rw [withRetryGo_step baseDelay factor jit i rem el he hre]
      omega

/-! ## Claims -/

/-- C1: for every retry budget `retries`, `withRetry` makes at most
`retries + 1` total calls of `fn`; a first success after `m ≤ retries`
retriable failures is returned immediately with `m + 1` attempts; and when
every allowed call fails with a retriable error, the error of the last call
(index `retries`) is rethrown as terminal after exactly `retries + 1`
attempts, even though that error is retriable. -/
theorem claim_C1_retry_budget {α : Type} (fn : Nat → Attempt α)
    (retries baseDelay factor : Nat) (jit : Nat → ℚ) :
    (withRetry fn retries baseDelay factor jit).attempts ≤ retries + 1 ∧
    (∀ m v, m ≤ retries →
      (∀ k, k < m → ∃ e, (fn k).result = .error e ∧ isRetriable e = true) →
      (fn m).result = .ok v →
      (withRetry fn retries baseDelay factor jit).result = .ok v ∧
      (withRetry fn retries baseDelay factor jit).attempts = m + 1) ∧
    ((∀ k, k ≤ retries → ∃ e, (fn k).result = .error e ∧ isRetriable e = true) →
      ∃ e, (fn retries).result = .error e ∧ isRetriable e = true ∧
        (withRetry fn retries baseDelay factor jit).result = .error e ∧
        (withRetry fn retries baseDelay factor jit).attempts = retries + 1) := by
  refine ⟨?_, ?_, ?_⟩
  · simpa using withRetryGo_attempts_le fn baseDelay factor jit retries 0 0
  · intro m v hm hfail hok
    exact withRetryGo_first_success fn baseDelay factor jit retries 0 0 m v
      (Nat.zero_le m) (by omega) (fun k _ hk2 => hfail k hk2) hok
  · intro hfail
    obtain ⟨e, he, hre, hres, hatt⟩ := withRetryGo_exhaust fn baseDelay factor jit retries 0 0
      (fun k _ hk2 => hfail k (by omega))
    exact ⟨e, by simpa using he, hre, hres, by simpa using hatt⟩

/-- The operation used by the C1 witness: one retriable 503 failure, then
success. -/
def c1Fn : Nat → Attempt String := fun i =>
  if i = 0 then ⟨10, .error ⟨some 503, none, some "upstream 503"⟩⟩
  else ⟨10, .ok "hello"⟩

theorem claim_C1_retry_budget_witness :
    (withRetry c1Fn 2 400 2 (fun _ => 0)).result = .ok "hello" ∧
    (withRetry c1Fn 2 400 2 (fun _ => 0)).attempts = 2 :=
  (claim_C1_retry_budget c1Fn 2 400 2 (fun _ => 0)).2.1 1 "hello" (by decide)
    (fun k hk => by
      have hk0 : k = 0 := by omega
      subst hk0
      exact ⟨⟨some 503, none, some "upstream 503"⟩, rfl, by decide⟩)
    rfl

/-- C2: the backoff policy retries exactly when the status is one of
`retriableStatuses` or the code is one of `retriableCodes`; any other error
is rethrown on the very first attempt. -/
theorem claim_C2_retriability (α : Type) :
    (∀ e : ErrSig, isRetriable e = true ↔
      (∃ s, e.status = some s ∧ s ∈ retriableStatuses) ∨
      (∃ c, e.code = some c ∧ c ∈ retriableCodes)) ∧
    (∀ (fn : Nat → Attempt α) (retries baseDelay factor : Nat) (jit : Nat → ℚ)
      (e : ErrSig),
      (fn 0).result = .error e → isRetriable e = false →
      (withRetry fn retries baseDelay factor jit).result = .error e ∧
      (withRetry fn retries baseDelay factor jit).attempts = 1) := by
  constructor
  · intro e
    obtain ⟨st, cd, msg⟩ := e
    cases st <;> cases cd <;> simp [isRetriable]
  · intro fn retries baseDelay factor jit e he hre
    have h0 := withRetryGo_nonretriable baseDelay factor jit 0 retries 0 he hre
    unfold withRetry
    rw [h0]
    exact ⟨rfl, rfl⟩

/-- The operation used by the C2 witness: a non-retriable 401 failure. -/
def c2Fn : Nat → Attempt String := fun _ =>
  ⟨10, .error ⟨some 401, none, some "Unauthorized"⟩⟩

theorem claim_C2_retriability_witness :
    (withRetry c2Fn 3 400 2 (fun _ => 0)).result =
      .error ⟨some 401, none, some "Unauthorized"⟩ ∧
    (withRetry c2Fn 3 400 2 (fun _ => 0)).attempts = 1 :=
  (claim_C2_retriability String).2 c2Fn 3 400 2 (fun _ => 0)
    ⟨some 401, none, some "Unauthorized"⟩ rfl (by decide)

/-- C3: if the primary call succeeds the fallback model is never invoked;
if it fails and a distinct non-empty fallback is configured, exactly one
further call is made, with the fallback model, and that call's outcome —
in particular its error, not the primary's — is what propagates; with no
distinct fallback configured, the primary's error propagates. -/
theorem claim_C3_fallback {α : Type} (call : String → Except ErrSig α)
    (primaryModel fallbackModel : String) :
    (∀ r, call primaryModel = .ok r →
      orchestrate call primaryModel fallbackModel = (.ok r, [primaryModel])) ∧
    (∀ e, call primaryModel = .error e →
      fallbackModel ≠ "" → fallbackModel ≠ primaryModel →
      (orchestrate call primaryModel fallbackModel).2 = [primaryModel, fallbackModel] ∧
      (orchestrate call primaryModel fallbackModel).1 = call fallbackModel) ∧
    (∀ e e2, call primaryModel = .error e →
      fallbackModel ≠ "" → fallbackModel ≠ primaryModel →
      call fallbackModel = .error e2 →
      (orchestrate call primaryModel fallbackModel).1 = .error e2) ∧
    (∀ e, call primaryModel = .error e →
      (fallbackModel = "" ∨ fallbackModel = primaryModel) →
      orchestrate call primaryModel fallbackModel = (.error e, [primaryModel])) := by
  refine ⟨?_, ?_, ?_, ?_⟩
  · intro r hok
    simp [orchestrate, hok]
  · intro e herr hne hnp
    simp [orchestrate, herr, hne, hnp]
  · intro e e2 herr hne hnp herr2
    simp [orchestrate, herr, hne, hnp, herr2]
  · intro e herr hsame
    rcases hsame with h | h <;> simp [orchestrate, herr, h]

/-- The call table used by the C3 witness: the primary model fails with 500,
the fallback model fails with 502. -/
def c3Call : String → Except ErrSig String := fun m =>
  if m = "gpt-5" then .error ⟨some 500, none, some "primary down"⟩
  else if m = "gpt-5-mini" then .error ⟨some 502, none, some "fallback down"⟩
  else .ok "unused"

theorem claim_C3_fallback_witness :
    (orchestrate c3Call "gpt-5" "gpt-5-mini").1 =
      .error ⟨some 502, none, some "fallback down"⟩ :=
  (claim_C3_fallback c3Call "gpt-5" "gpt-5-mini").2.2.1
    ⟨some 500, none, some "primary down"⟩ ⟨some 502, none, some "fallback down"⟩
    rfl (by decide) (by decide) rfl

/-- C4: the timeout races the settling time of the whole retry sequence, so
when every individual call of `fn` finishes within the budget but the
cumulative sequence (calls plus backoff sleeps) reaches it, the caller gets
the `ClientTimeout` error — which carries no upstream status or code — and
not any attempt's upstream error. -/
theorem claim_C4_timeout_wraps_retries {α : Type} (fn : Nat → Attempt α)
    (retries baseDelay factor : Nat) (jit : Nat → ℚ) (timeoutMs : Nat)
    (_hdur : ∀ i, (fn i).dur < timeoutMs)
    (hcum : timeoutMs ≤ (withRetry fn retries baseDelay factor jit).elapsed) :
    (callOpenAIChat fn retries baseDelay factor jit timeoutMs).result =
      .error (clientTimeoutErr timeoutMs) ∧
    (clientTimeoutErr timeoutMs).status = none ∧
    (clientTimeoutErr timeoutMs).code = none := by
  refine ⟨?_, rfl, rfl⟩
  unfold callOpenAIChat withTimeout
  simp only [if_neg (not_lt.mpr hcum)]

/-- The operation used by the C4 witness: every call takes 15000 ms (within
the 20000 ms budget) and fails with a retriable 503. -/
def c4Fn : Nat → Attempt String := fun _ =>
  ⟨15000, .error ⟨some 503, none, some "overloaded"⟩⟩

theorem claim_C4_timeout_wraps_retries_witness :
    (callOpenAIChat c4Fn 1 400 2 (fun _ => 0) 20000).result =
      .error (clientTimeoutErr 20000) := by
  have hcum : 20000 ≤ (withRetry c4Fn 1 400 2 (fun _ => 0)).elapsed := by
    unfold withRetry
    rw [withRetryGo_step 400 2 (fun _ => 0) 0 0 0 (e := ⟨some 503, none, some "overloaded"⟩)
      rfl (by decide)]
    rw [withRetryGo_exhausted 400 2 (fun _ => 0) 1 _ (e := ⟨some 503, none, some "overloaded"⟩)
      rfl (by decide)]
    simp only [c4Fn]
    omega
  exact (claim_C4_timeout_wraps_retries c4Fn 1 400 2 (fun _ => 0) 20000
    (fun _ => by norm_num [c4Fn]) hcum).1

/-- C5: the timeout race returns the operation's result unmodified when it
settles before the budget elapses, fails with the `ClientTimeout` error when
the budget elapses first, and on both paths the timer is cleared. -/
theorem claim_C5_timeout_race {α : Type} (settleTime ms : Nat)
    (r : Except ErrSig α) :
    (settleTime < ms → withTimeout settleTime r ms = ⟨r, true⟩) ∧
    (ms ≤ settleTime →
      withTimeout settleTime r ms = ⟨.error (clientTimeoutErr ms), true⟩) ∧
    (withTimeout settleTime r ms).timerCleared = true := by
  refine ⟨?_, ?_, rfl⟩
  · intro h
    unfold withTimeout
    rw [if_pos h]
  · intro h
    unfold withTimeout
    rw [if_neg (not_lt.mpr h)]

theorem claim_C5_timeout_race_witness :
    withTimeout 5000 (Except.ok "reply") 20000 = ⟨Except.ok "reply", true⟩ ∧
    withTimeout 21000 (Except.ok "reply") 20000 =
      ⟨.error (clientTimeoutErr 20000), true⟩ :=
  ⟨(claim_C5_timeout_race 5000 20000 (Except.ok "reply")).1 (by decide),
   (claim_C5_timeout_race 21000 20000 (Except.ok "reply")).2.1 (by decide)⟩

/-- C7: the catch handler responds 503 exactly when the error carries a
status in `upstream503Statuses`, and 500 for everything else — in
particular for the statusless `ClientTimeout` error — and the failure body
names the upstream status when a (truthy) one is present. -/
theorem claim_C7_http_status (e : ErrSig) (ms : Nat) :
    ((∃ s, e.status = some s ∧ s ∈ upstream503Statuses) → httpStatusFor e = 503) ∧
    ((∀ s, e.status = some s → s ∉ upstream503Statuses) → httpStatusFor e = 500) ∧
    httpStatusFor (clientTimeoutErr ms) = 500 ∧
    (∀ s, e.status = some s → s ≠ 0 →
      failureBody e = "AI backend temporarily unavailable (status=" ++ toString s ++
        "). Details: " ++ errorDetail e) := by
  refine ⟨?_, ?_, rfl, ?_⟩
  · rintro ⟨s, hs, hmem⟩
    simp [httpStatusFor, hs]
    exact hmem
  · intro hnot
    cases hst : e.status with
    | none => simp [httpStatusFor, hst]
    | some s =>
      have hmem := hnot s hst
      simp [httpStatusFor, hst]
      exact hmem
  · intro s hs hs0
    simp [failureBody, hs, hs0]

theorem claim_C7_http_status_witness :
    httpStatusFor ⟨some 503, none, some "overloaded"⟩ = 503 ∧
    httpStatusFor ⟨some 401, none, some "Unauthorized"⟩ = 500 ∧
    failureBody ⟨some 503, none, some "overloaded"⟩ =
      "AI backend temporarily unavailable (status=503). Details: overloaded" := by
  refine ⟨?_, ?_, ?_⟩
  · exact (claim_C7_http_status ⟨some 503, none, some "overloaded"⟩ 20000).1
      ⟨503, rfl, by decide⟩
  · exact (claim_C7_http_status ⟨some 401, none, some "Unauthorized"⟩ 20000).2.1
      (fun s hs => by
        cases hs
        decide)
  · have h := (claim_C7_http_status ⟨some 503, none, some "overloaded"⟩ 20000).2.2.2
      503 rfl (by decide)
    rw [h]
    rfl

/-- C8: `trimForTwitch` returns text of length at most 1000 unchanged and
cuts longer text to exactly its first 1000 characters. -/
theorem claim_C8_trim (text : String) :
    (text.length ≤ 1000 → trimForTwitch text = text) ∧
    (1000 < text.length →
      (trimForTwitch text).toList = text.toList.take 1000 ∧
      (trimForTwitch text).length = 1000) := by
  constructor
  · intro h
    unfold trimForTwitch
    by_cases he : text = ""
    · rw [if_pos he, he]
    · rw [if_neg he, if_pos h]
  · intro h
    have he : text ≠ "" := by
      intro h0
      rw [h0] at h
      simp [String.length] at h
    unfold trimForTwitch
    rw [if_neg he, if_neg (not_le.mpr h)]
    constructor
    · rfl
    · show (text.toList.take 1000).length = 1000
      rw [List.length_take]
      have : text.toList.length = text.length := rfl
      omega

/-- The 1001-character text used by the C8 witness. -/
def c8Long : String := String.mk (List.replicate 1001 'x')

theorem claim_C8_trim_witness :
    trimForTwitch "hi" = "hi" ∧
    (trimForTwitch c8Long).toList = c8Long.toList.take 1000 ∧
    (trimForTwitch c8Long).length = 1000 := by
  have hlen : c8Long.length = 1001 := by
    show (List.replicate 1001 'x').length = 1001
    rw [List.length_replicate]
  refine ⟨(claim_C8_trim "hi").1 (by decide), (claim_C8_trim c8Long).2 (by omega)⟩

/-- C9 fails as stated: the source rounds the delay
(`Math.round(baseDelay * Math.pow(factor, attempt - 1) + Math.random() * 200)`),
so for the jitter draw `1/2` the computed delay `401` differs from
`baseDelay * factor^(attempt-1) + jitter = 400.5`. -/
theorem claim_C9_counterexample :
    (backoffDelay 400 2 1 (1 / 2) : ℚ) ≠
      (400 : ℚ) * (2 : ℚ) ^ (1 - 1) + 1 / 2 := by
  norm_num [backoffDelay, round_eq]

/-- C9 (amended): the computed delay is the *rounded* value
`round (baseDelay * factor^(attempt-1) + jitter)`; for jitter in `[0, 200)`
it lies between the jitter-free value and that value plus 200, and ignoring
jitter it is monotonically non-decreasing in the attempt number. -/
theorem claim_C9_backoff (a b : Nat) (j : ℚ) (_ha : 1 ≤ a) (hab : a ≤ b)
    (hj0 : 0 ≤ j) (hj : j < 200) :
    ((400 * 2 ^ (a - 1) : ℕ) : ℤ) ≤ backoffDelay 400 2 a j ∧
    backoffDelay 400 2 a j ≤ ((400 * 2 ^ (a - 1) : ℕ) : ℤ) + 200 ∧
    backoffDelay 400 2 a 0 ≤ backoffDelay 400 2 b 0 := by
  have hsplit : ∀ n : Nat, ∀ x : ℚ,
      backoffDelay 400 2 n x = ((400 * 2 ^ (n - 1) : ℕ) : ℤ) + round x := by
    intro n x
    unfold backoffDelay
    have hcast : ((400 : ℕ) : ℚ) * ((2 : ℕ) : ℚ) ^ (n - 1) =
        (((400 * 2 ^ (n - 1) : ℕ) : ℤ) : ℚ) := by
      push_cast
      ring
    rw [hcast, round_int_add]
  have hr0 : 0 ≤ round j := by
    rw [round_eq]
    exact Int.floor_nonneg.mpr (by linarith)
  have hr200 : round j ≤ 200 := by
    rw [round_eq]
    have hlt : ⌊j + 1 / 2⌋ < 201 := Int.floor_lt.mpr (by push_cast; linarith)
    omega
  refine ⟨?_, ?_, ?_⟩
  · rw [hsplit a j]
    omega
  · rw [hsplit a j]
    omega
  · rw [hsplit a 0, hsplit b 0]
    have hmono : (400 * 2 ^ (a - 1) : ℕ) ≤ (400 * 2 ^ (b - 1) : ℕ) :=
      Nat.mul_le_mul_left 400
        (Nat.pow_le_pow_right (by norm_num) (Nat.sub_le_sub_right hab 1))
    have hz : round (0 : ℚ) = 0 := by
      rw [round_eq]
      norm_num
    rw [hz]
    omega

theorem claim_C9_backoff_witness :
    ((400 * 2 ^ (1 - 1) : ℕ) : ℤ) ≤ backoffDelay 400 2 1 100 ∧
    backoffDelay 400 2 1 100 ≤ ((400 * 2 ^ (1 - 1) : ℕ) : ℤ) + 200 ∧
    backoffDelay 400 2 1 0 ≤ backoffDelay 400 2 3 0 :=
  claim_C9_backoff 1 3 100 (by norm_num) (by norm_num) (by norm_num) (by norm_num)

/-! ## Conversation-window lemmas -/

theorem recentPairs_length (u r : Nat → String) :
    ∀ k s, (recentPairs u r s k).length = 2 * k := by
  intro k
  induction k with
  | zero => intro s; rfl
  | succ k ih =>
    intro s
    simp only [recentPairs, List.length_cons, ih (s + 1)]
    omega

theorem recentPairs_snoc (u r : Nat → String) :
    ∀ k s, recentPairs u r s (k + 1) =
      recentPairs u r s k ++
        [⟨Role.user, u (s + k)⟩, ⟨Role.assistant, r (s + k)⟩] := by
  intro k
  induction k with
  | zero =>
    intro s
    simp [recentPairs]
  | succ k ih =>
    intro s
    have harith : s + 1 + k = s + (k + 1) := by omega
    calc recentPairs u r s (k + 1 + 1)
        = ⟨Role.user, u s⟩ :: ⟨Role.assistant, r s⟩ :: recentPairs u r (s + 1) (k + 1) := rfl
      _ = ⟨Role.user, u s⟩ :: ⟨Role.assistant, r s⟩ ::
            (recentPairs u r (s + 1) k ++
              [⟨Role.user, u (s + 1 + k)⟩, ⟨Role.assistant, r (s + 1 + k)⟩]) := by
          rw [ih (s + 1)]
      _ = recentPairs u r s (k + 1) ++
            [⟨Role.user, u (s + (k + 1))⟩, ⟨Role.assistant, r (s + (k + 1))⟩] := by
          rw [harith]
          rfl

/-- The closed form of the CHAT-mode history after `n` successful requests
with a window of `H ≥ 1` pairs: the system message followed by the pairs of
the `min n H` most recent requests. -/
theorem chatCycles_closed (H : Nat) (sys : Exchange) (u r : Nat → String)
    (hH : 1 ≤ H) :
    ∀ n, chatCycles H sys u r n =
      sys :: recentPairs u r (n - min n H) (min n H) := by
  intro n
  induction n with
  | zero => simp [chatCycles, recentPairs]
  | succ n ih =>
    by_cases hnH : n < H
    · -- window not yet full: no eviction
      have hmin : min n H = n := Nat.min_eq_left (le_of_lt hnH)
      have hmin2 : min (n + 1) H = n + 1 := Nat.min_eq_left hnH
      have hlen : (chatCycles H sys u r n ++ [(⟨Role.user, u n⟩ : Exchange)]).length = 2 * n + 2 := by
        rw [ih, hmin]
        simp [recentPairs_length]
      show chatCycle H (chatCycles H sys u r n) (u n) (.ok (r n)) = _
      unfold chatCycle pushUserAndEvict
      rw [if_neg (by rw [hlen]; omega)]
      rw [ih, hmin, hmin2]
      simp only [Nat.sub_self, hmin]
      rw [recentPairs_snoc u r n 0]
      simp
    · -- window full: the oldest pair is evicted
      have hHn : H ≤ n := le_of_not_lt hnH
      have hmin : min n H = H := Nat.min_eq_right hHn
      have hmin2 : min (n + 1) H = H := Nat.min_eq_right (by omega)
      obtain ⟨H1, rfl⟩ : ∃ H1, H = H1 + 1 := ⟨H - 1, by omega⟩
      have hlen : (chatCycles (H1 + 1) sys u r n ++ [(⟨Role.user, u n⟩ : Exchange)]).length
          = 2 * (H1 + 1) + 2 := by
        rw [ih, hmin]
        simp [recentPairs_length]
      show chatCycle (H1 + 1) (chatCycles (H1 + 1) sys u r n) (u n) (.ok (r n)) = _
      unfold chatCycle pushUserAndEvict
      rw [if_pos (by rw [hlen]; omega)]
      rw [ih, hmin]
      show (sys :: recentPairs u r (n - (H1 + 1)) (H1 + 1) ++ [(⟨Role.user, u n⟩ : Exchange)]).take 1 ++
          (sys :: recentPairs u r (n - (H1 + 1)) (H1 + 1) ++ [(⟨Role.user, u n⟩ : Exchange)]).drop 3 ++
          [(⟨Role.assistant, r n⟩ : Exchange)] = _
      rw [show recentPairs u r (n - (H1 + 1)) (H1 + 1) =
        ⟨Role.user, u (n - (H1 + 1))⟩ :: ⟨Role.assistant, r (n - (H1 + 1))⟩ ::
          recentPairs u r (n - (H1 + 1) + 1) H1 from rfl]
      rw [hmin2]
      have harith : n + 1 - (H1 + 1) = n - (H1 + 1) + 1 := by omega
      rw [harith]
      rw [show recentPairs u r (n - (H1 + 1) + 1) (H1 + 1) =
        recentPairs u r (n - (H1 + 1) + 1) H1 ++
          [⟨Role.user, u (n - (H1 + 1) + 1 + H1)⟩,
           ⟨Role.assistant, r (n - (H1 + 1) + 1 + H1)⟩] from recentPairs_snoc u r H1 _]
      have harith2 : n - (H1 + 1) + 1 + H1 = n := by omega
      rw [harith2]
      simp

/-- C6 fails as stated for a window of `H = 0` pairs: after one successful
request the stored sequence has length 2 (the eviction removed only the just
pushed user message), not `1 + 2 * min 1 0 = 1`. -/
theorem claim_C6_counterexample :
    (chatCycles 0 ⟨Role.system, "S"⟩ (fun _ => "q") (fun _ => "a") 1).length = 2 ∧
    (2 : Nat) ≠ 1 + 2 * min 1 0 := by
  constructor
  · rfl
  · decide

/-- C6 (amended to windows `H ≥ 1`): after `n` successful multi-turn
requests the history is exactly the system message followed by the
`min n H` most recent (user, assistant) pairs; hence its length is
`1 + 2 * min n H` and never exceeds `1 + 2 * H`, the system message stays
at position 0, and eviction removes exactly the oldest pair. -/
theorem claim_C6_conversation_window (H n : Nat) (sys : Exchange)
    (u r : Nat → String) (hH : 1 ≤ H) :
    chatCycles H sys u r n = sys :: recentPairs u r (n - min n H) (min n H) ∧
    (chatCycles H sys u r n).length = 1 + 2 * min n H ∧
    (chatCycles H sys u r n).length ≤ 1 + 2 * H := by
  have hc := chatCycles_closed H sys u r hH n
  refine ⟨hc, ?_, ?_⟩
  · rw [hc]
    simp [recentPairs_length]
    omega
  · rw [hc]
    simp [recentPairs_length]
    have : min n H ≤ H := Nat.min_le_right n H
    omega

theorem claim_C6_conversation_window_witness :
    chatCycles 2 ⟨Role.system, "S"⟩ (fun i => "q" ++ toString i)
        (fun i => "a" ++ toString i) 3 =
      ⟨Role.system, "S"⟩ ::
        recentPairs (fun i => "q" ++ toString i) (fun i => "a" ++ toString i)
          (3 - min 3 2) (min 3 2) ∧
    (chatCycles 2 ⟨Role.system, "S"⟩ (fun i => "q" ++ toString i)
        (fun i => "a" ++ toString i) 3).length = 1 + 2 * min 3 2 ∧
    (chatCycles 2 ⟨Role.system, "S"⟩ (fun i => "q" ++ toString i)
        (fun i => "a" ++ toString i) 3).length ≤ 1 + 2 * 2 :=
  claim_C6_conversation_window 2 3 ⟨Role.system, "S"⟩
    (fun i => "q" ++ toString i) (fun i => "a" ++ toString i) (by decide)

/-- The system message of `src/index.js` line 116. -/
def sysEx : Exchange := ⟨Role.system, "You are a helpful Twitch Chatbot."⟩

/-- C10 trace, request 1: the upstream call fails, the pushed user message
stays. -/
def c10Step1 : List Exchange :=
  chatCycle 1 [sysEx] "u0" (.error (⟨some 500, none, some "boom"⟩ : ErrSig))

/-- C10 trace, request 2: a successful request on top of the broken state. -/
def c10Step2 : List Exchange := chatCycle 1 c10Step1 "u1" (.ok "a1")

/-- C10 trace, request 3: another successful request; pushing its user
message overflows the window and evicts positions 1-2. -/
def c10Step3 : List Exchange := chatCycle 1 c10Step2 "u2" (.ok "a2")

/-- The two elements removed by the request-3 eviction: positions 1 and 2 of
the list after the user push. -/
def c10Evicted : List Exchange :=
  ((c10Step2 ++ [(⟨Role.user, "u2"⟩ : Exchange)]).drop 1).take 2

/-- C10: the error path performs no rollback — after a failed request the
history ends in a user message with no matching assistant message, and the
eviction triggered two requests later removes two *user* messages, not a
matched (user, assistant) pair. -/
theorem claim_C10_no_rollback :
    c10Step1 = [sysEx, ⟨Role.user, "u0"⟩] ∧
    c10Step2 = [sysEx, ⟨Role.user, "u0"⟩, ⟨Role.user, "u1"⟩,
      ⟨Role.assistant, "a1"⟩] ∧
    c10Evicted = [⟨Role.user, "u0"⟩, ⟨Role.user, "u1"⟩] ∧
    c10Step3 = [sysEx, ⟨Role.assistant, "a1"⟩, ⟨Role.user, "u2"⟩,
      ⟨Role.assistant, "a2"⟩] :=
  ⟨rfl, rfl, rfl, rfl⟩
